import Mathlib

/-!
Shallow embedding of the Kubernetes deployment platform of `up`
(config override, stack provisioning, builder pipeline, packager
transform, deployer service apply, platform-level event emission),
together with theorems settling the spec claims against the code.

External effects (Kubernetes API calls, object-store calls, file
writes, watch streams) are modelled by oracle parameters giving each
call's result; the control flow around those calls is translated
line-by-line from the Go source.
-/

namespace Up

/-! ## Config data model (src/config/kubernetes.go) -/

structure Storage where
  Endpoint : String
  AccessKey : String
  SecretKey : String
  Secure : Bool
  Bucket : String
  Location : String
deriving Repr, DecidableEq

structure Registry where
  URL : String
  Image : String
  Username : String
  Email : String
  Password : String
deriving Repr, DecidableEq

structure Kubernetes where
  KubeConfig : String
  KubeContext : String
  Storage : Storage
  Registry : Registry
deriving Repr, DecidableEq

/-- The enclosing `up.Config`, restricted to the field `Override` touches. -/
structure Config where
  Kubernetes : Kubernetes
deriving Repr, DecidableEq

/-- Embeds `(*Kubernetes).Override` from src/config/kubernetes.go lines
115-167: each non-zero field of the override record `k` is copied into
the target config `c`, one `if` per field, in source order.  The
`Storage.Bucket` branch is translated exactly as written in the source:
its body assigns `k.Storage.Secure` to `c.Kubernetes.Storage.Secure`. -/
def Kubernetes.Override (k : Kubernetes) (c : Config) : Config :=
  let c := if k.KubeConfig ≠ "" then
    { c with Kubernetes.KubeConfig := k.KubeConfig } else c
  let c := if k.KubeContext ≠ "" then
    { c with Kubernetes.KubeContext := k.KubeContext } else c
  let c := if k.Storage.Endpoint ≠ "" then
    { c with Kubernetes.Storage.Endpoint := k.Storage.Endpoint } else c
  let c := if k.Storage.AccessKey ≠ "" then
    { c with Kubernetes.Storage.AccessKey := k.Storage.AccessKey } else c
  let c := if k.Storage.SecretKey ≠ "" then
    { c with Kubernetes.Storage.SecretKey := k.Storage.SecretKey } else c
  let c := if k.Storage.Secure ≠ false then
    { c with Kubernetes.Storage.Secure := k.Storage.Secure } else c
  let c := if k.Storage.Bucket ≠ "" then
    { c with Kubernetes.Storage.Secure := k.Storage.Secure } else c
  let c := if k.Storage.Location ≠ "" then
    { c with Kubernetes.Storage.Location := k.Storage.Location } else c
  let c := if k.Registry.URL ≠ "" then
    { c with Kubernetes.Registry.URL := k.Registry.URL } else c
  let c := if k.Registry.Image ≠ "" then
    { c with Kubernetes.Registry.Image := k.Registry.Image } else c
  let c := if k.Registry.Username ≠ "" then
    { c with Kubernetes.Registry.Username := k.Registry.Username } else c
  let c := if k.Registry.Email ≠ "" then
    { c with Kubernetes.Registry.Email := k.Registry.Email } else c
  let c := if k.Registry.Password ≠ "" then
    { c with Kubernetes.Registry.Password := k.Registry.Password } else c
  c

/-- An all-empty storage block. -/
def emptyStorage : Storage :=
  { Endpoint := "", AccessKey := "", SecretKey := "", Secure := false
    Bucket := "", Location := "" }

/-- An all-empty registry block. -/
def emptyRegistry : Registry :=
  { URL := "", Image := "", Username := "", Email := "", Password := "" }

/-- Override record whose only non-zero field is `Storage.Bucket`. -/
def overrideBucketOnly : Kubernetes :=
  { KubeConfig := "", KubeContext := ""
    Storage := { emptyStorage with Bucket := "bucket2" }
    Registry := emptyRegistry }

/-- Target config with a non-empty bucket and `Secure = true`. -/
def configSecureBucket1 : Config :=
  { Kubernetes :=
    { KubeConfig := "", KubeContext := ""
      Storage := { emptyStorage with Bucket := "bucket1", Secure := true }
      Registry := emptyRegistry } }

/-! ## Stack provisioning (src/platform/kubernetes/stack/stack.go) -/

/-- Result of a Kubernetes API call, as the Go code discriminates it:
either a typed `*k8s.APIError` carrying a status code, or some other
(untyped) error value. -/
inductive K8sErr
  | api (code : Int)
  | other (msg : String)
deriving Repr, DecidableEq

/-- Embeds `(*KubernetesStack).Create` from stack.go lines 80-112.
`nsResult` is the namespace-creation call's outcome (`none` = success),
`registryPassword` is `s.config.Kubernetes.Registry.Password`, and
`secretResult` is the outcome of `createDockerRegistrySecret`.  Returns
the call's result paired with whether the secret step was attempted.

The source checks the error with a type assertion,
`if apiErr, ok := err.(*k8s.APIError); ok`, and returns only inside
that branch (when the code is not 409); an error of any other type
falls through to the `namespaceExists` label. -/
def KubernetesStack.Create (nsResult : Option K8sErr) (registryPassword : String)
    (secretResult : Except String Unit) : Except String Unit × Bool :=
  let nsAbort : Option String :=
    match nsResult with
    | some (.api code) =>
      if code = 409 then none else some "create namespace"
    | some (.other _) => none
    | none => none
  match nsAbort with
  | some e => (.error e, false)
  | none =>
    if registryPassword ≠ "" then
      match secretResult with
      | .error e => (.error ("create registry secret: " ++ e), true)
      | .ok _ => (.ok (), true)
    else
      (.ok (), false)

/-! ## Builder (src/platform/kubernetes/build/build.go) -/

/-- Presence of the two files `Run` injects into the working directory. -/
structure WorkDir where
  upProxy : Bool
  dockerfileUp : Bool
deriving Repr, DecidableEq

/-- Outcome of one external fallible step (`ioutil.WriteFile`,
`io.Copy`, `Close`, ...). -/
inductive StepResult
  | ok
  | err (msg : String)
deriving Repr, DecidableEq

/-- Embeds `(*Build).injectProxy` (build.go lines 290-302): write
`up-proxy`, then write `Dockerfile.up`; each write may fail, and a
failing first write leaves the directory untouched while a failing
second write leaves `up-proxy` behind.  (Both error wraps in the
source say "writing up-proxy".) -/
def Build.injectProxy (w1 w2 : StepResult) (fs : WorkDir) :
    Except String Unit × WorkDir :=
  match w1 with
  | .err m => (.error ("writing up-proxy: " ++ m), fs)
  | .ok =>
    let fs := { fs with upProxy := true }
    match w2 with
    | .err m => (.error ("writing up-proxy: " ++ m), fs)
    | .ok => (.ok (), { fs with dockerfileUp := true })

/-- Embeds `(*Build).removeProxy` (build.go lines 305-310): both files
are removed unconditionally, errors ignored. -/
def Build.removeProxy (_fs : WorkDir) : WorkDir :=
  { upProxy := false, dockerfileUp := false }

/-- Oracle results for the steps inside `(*Build).tarball`. -/
structure TarballEnv where
  w1 : StepResult
  w2 : StepResult
  targzResult : Except String Unit
  copyResult : StepResult
  closeResult : StepResult
deriving Repr

/-- Embeds `(*Build).tarball` (build.go lines 54-80).  `injectProxy`
runs first; on its failure the function returns at once — the
`defer b.removeProxy()` is registered only after a successful
injection, so that early return does not remove anything.  After a
successful injection every exit path (targz failure, copy failure,
close failure, success) passes through `removeProxy`. -/
def Build.tarball (env : TarballEnv) (fs : WorkDir) :
    Except String Unit × WorkDir :=
  match Build.injectProxy env.w1 env.w2 fs with
  | (.error e, fs1) => (.error ("injecting proxy: " ++ e), fs1)
  | (.ok _, fs1) =>
    let res : Except String Unit :=
      match env.targzResult with
      | .error e => .error ("tag.gz: " ++ e)
      | .ok _ =>
        match env.copyResult with
        | .err e => .error ("copying: " ++ e)
        | .ok =>
          match env.closeResult with
          | .err e => .error ("closing: " ++ e)
          | .ok => .ok ()
    (res, Build.removeProxy fs1)

/-- One delivery from the builder watch: either `watcher.Next`
returned an error, or it filled in a pod whose `Status.Phase` pointer
may or may not be populated. -/
inductive BuildWatchEvent
  | nextErr (msg : String)
  | pod (phase : Option String)
deriving Repr, DecidableEq

/-- How `Run`'s watch loop ends.  `blocked` is the modelling artifact
for an exhausted event list: the Go loop would still be waiting on
`watcher.Next`.  `fault` is the nil-pointer dereference of
`*pod.Status.Phase` on an event without a populated phase. -/
inductive BuildLoopResult
  | ok
  | buildFailed
  | watchNextError (msg : String)
  | fault
  | blocked
deriving Repr, DecidableEq

/-- Embeds the watch loop of `(*Build).Run` (build.go lines 255-273):
a `watcher.Next` error returns immediately (no delete); otherwise
`*pod.Status.Phase` is dereferenced and compared against "Failed" then
"Succeeded"; a terminal phase deletes the pod and exits the loop; any
other phase continues.  The returned Bool is whether
`b.k8s.Delete(ctx, pod)` was invoked. -/
def buildWatchLoop : List BuildWatchEvent → BuildLoopResult × Bool
  | [] => (.blocked, false)
  | .nextErr m :: _ => (.watchNextError m, false)
  | .pod none :: _ => (.fault, false)
  | .pod (some p) :: rest =>
    if p = "Failed" then (.buildFailed, true)
    else if p = "Succeeded" then (.ok, true)
    else buildWatchLoop rest

/-- Oracle results for the stages of `(*Build).Run`. -/
structure RunEnv where
  tenv : TarballEnv
  uploadResult : Except String String
  podCreateResult : Option String
  watchOpenResult : Option String
  events : List BuildWatchEvent
deriving Repr

/-- How `(*Build).Run` exits. -/
inductive RunOutcome
  | ok
  | tarballError (msg : String)
  | uploadError (msg : String)
  | podCreateError (msg : String)
  | watchOpenError (msg : String)
  | buildFailed
  | watchNextError (msg : String)
  | fault
  | blocked
deriving Repr, DecidableEq

/-- Embeds `(*Build).Run` (build.go lines 228-276): build the tarball
(which injects and removes the proxy files), upload it, create the
builder pod, open the watch, then run the watch loop.  Returns the
outcome, whether the builder pod was deleted, and the final working
directory. -/
def Build.Run (env : RunEnv) (fs : WorkDir) :
    RunOutcome × Bool × WorkDir :=
  match Build.tarball env.tenv fs with
  | (.error e, fs1) => (.tarballError ("build tarball: " ++ e), false, fs1)
  | (.ok _, fs1) =>
    match env.uploadResult with
    | .error e => (.uploadError ("upload context: " ++ e), false, fs1)
    | .ok _ =>
      match env.podCreateResult with
      | some e => (.podCreateError ("create pod: " ++ e), false, fs1)
      | none =>
        match env.watchOpenResult with
        | some e => (.watchOpenError ("watch build: " ++ e), false, fs1)
        | none =>
          match buildWatchLoop env.events with
          | (.ok, d) => (.ok, d, fs1)
          | (.buildFailed, d) => (.buildFailed, d, fs1)
          | (.watchNextError m, d) => (.watchNextError m, d, fs1)
          | (.fault, d) => (.fault, d, fs1)
          | (.blocked, d) => (.blocked, d, fs1)

/-- Minimal model of Go's `fmt.Sprintf` for format strings that use
only the `%s` verb, on the underlying character lists. -/
def sprintfChars : List Char → List String → List Char
  | [], _ => []
  | '%' :: 's' :: rest, arg :: args => arg.toList ++ sprintfChars rest args
  | '%' :: 's' :: rest, [] => "%!s(MISSING)".toList ++ sprintfChars rest []
  | c :: rest, args => c :: sprintfChars rest args

/-- `fmt.Sprintf` with `%s` verbs only. -/
def sprintf (fmt : String) (args : List String) : String :=
  ⟨sprintfChars fmt.toList args⟩

/-- Embeds `(*Build).kanikoDestination` (build.go lines 121-125):
`fmt.Sprintf` over the format `%s/%s:%s` applied to the registry URL,
the registry image and the build id. -/
def Build.kanikoDestination (id registry image : String) : String :=
  sprintf "%s/%s:%s" [registry, image, id]

/-- Embeds `(*Build).Image` (build.go lines 127-129), which just calls
`kanikoDestination`. -/
def Build.Image (id registry image : String) : String :=
  Build.kanikoDestination id registry image

/-- Embeds the kaniko container argument list of `(*Build).pod`
(build.go lines 180-186). -/
def Build.kanikoArgs (id registryURL registryImage : String) : List String :=
  [ "--cache=true"
  , sprintf "--dockerfile=%s" ["Dockerfile.up"]
  , "--context=dir:///build/context"
  , sprintf "--destination=%s" [Build.kanikoDestination id registryURL registryImage] ]

/-! ## Packager transform (src/internal/targz/targz.go) -/

/-- A tar entry's `os.FileInfo` as the transform sees it: the name is
the full walked path (via `pathInfo`), the mode a permission-bit word. -/
structure FileInfo where
  name : List Char
  size : Int
  mode : Nat
  modTime : Int
  dir : Bool
deriving Repr, DecidableEq

/-- Embeds `strings.Replace(s, old, new, -1)` for the single-character
pattern and replacement used by the transform: every occurrence of
`old` is replaced by `new`. -/
def goReplaceChar (old new : Char) : List Char → List Char
  | [] => []
  | c :: rest => (if c = old then new else c) :: goReplaceChar old new rest

/-- Embeds the `archive.TransformFunc` of targz.go lines 17-29: the
name has every backslash replaced by a forward slash, the mode is
OR'd with `0555`, and size, modification time and directory flag are
carried over. -/
def targzTransform (i : FileInfo) : FileInfo :=
  { name := goReplaceChar (Char.ofNat 92) '/' i.name
    size := i.size
    mode := i.mode ||| 0o555
    modTime := i.modTime
    dir := i.dir }

/-! ## Deployer (src/unnamed/part_002, package deployment) -/

/-- One delivery from the readiness watch of `(*Deployment).Deploy`:
either a `watcher.Next` error, or a deployment object whose
`Status.AvailableReplicas` and `Status.Replicas` pointers may or may
not be populated. -/
inductive DeployWatchEvent
  | nextErr (msg : String)
  | dep (available : Option Int) (replicas : Option Int)
deriving Repr, DecidableEq

/-- How the readiness watch loop ends (`blocked` again models an
exhausted event list; `fault` the nil dereference). -/
inductive DeployLoopResult
  | ready
  | watchNextError (msg : String)
  | fault
  | blocked
deriving Repr, DecidableEq

/-- Embeds the readiness loop of `(*Deployment).Deploy` (part_002
lines 103-114): a `watcher.Next` error returns immediately; otherwise
`*deploy.Status.AvailableReplicas == *deploy.Status.Replicas` is
evaluated — both pointers dereferenced unconditionally — and the loop
exits when they are equal, else consumes the next event. -/
def deployWatchLoop : List DeployWatchEvent → DeployLoopResult
  | [] => .blocked
  | .nextErr m :: _ => .watchNextError m
  | .dep none _ :: _ => .fault
  | .dep _ none :: _ => .fault
  | .dep (some a) (some r) :: rest =>
    if a = r then .ready else deployWatchLoop rest

/-- Cluster operation chosen for an apply. -/
inductive Op
  | create
  | update
deriving Repr, DecidableEq

/-- The fields of an existing service that `Deploy` reads back:
`Spec.ClusterIP` and `Metadata.ResourceVersion`. -/
structure PrevService where
  clusterIP : String
  resourceVersion : String
deriving Repr, DecidableEq

/-- The service object built by `(*Deployment).service` (part_002
lines 222-252), restricted to its scalar fields. -/
structure ServiceObj where
  name : String
  nsName : String
  resourceVersion : String
  labels : List (String × String)
  portName : String
  port : Int
  targetPort : Int
  selector : List (String × String)
  serviceType : String
  clusterIP : String
deriving Repr, DecidableEq

/-- Embeds `(*Deployment).podLabels` (part_002 lines 214-220). -/
def Deployment.podLabels (cfgName stage : String) : List (String × String) :=
  [("up-project", cfgName), ("up-stage", stage), ("up-process", "deploy")]

/-- Embeds `(*Deployment).service` (part_002 lines 222-252): name and
namespace from the config and stack, the given resource version and
previous cluster IP, the fixed `up-proxy` port 80 → 8080, selector
equal to the pod labels, type `ClusterIP`. -/
def Deployment.service (cfgName stage nsName previousIP resourceVersion : String) :
    ServiceObj :=
  { name := cfgName
    nsName := nsName
    resourceVersion := resourceVersion
    labels := Deployment.podLabels cfgName stage
    portName := "up-proxy"
    port := 80
    targetPort := 8080
    selector := Deployment.podLabels cfgName stage
    serviceType := "ClusterIP"
    clusterIP := previousIP }

/-- Oracle results for the stages of `(*Deployment).Deploy`.
`prevService` is the result of the `Get` on the service name:
`none` when the `Get` errored (service absent). -/
structure DeployEnv where
  applyDeploymentResult : Option String
  watchOpenResult : Option String
  events : List DeployWatchEvent
  prevService : Option PrevService
  applyServiceResult : Option String
deriving Repr, DecidableEq

/-- Embeds `(*Deployment).Deploy` (part_002 lines 73-139): apply the
workload, open the readiness watch, run the readiness loop, then
`Get` the existing service — on error the operation becomes `Create`
with empty previous IP and resource version, otherwise `Update` with
the read-back `Spec.ClusterIP` and `Metadata.ResourceVersion` — build
the service object and apply it.  Returns the call's result paired
with the operation and service object applied (`none` when the
service step was never reached).  Both apply failures are wrapped
"deployment apply", as in the source. -/
def Deployment.Deploy (cfgName stage nsName : String) (env : DeployEnv) :
    Except String Unit × Option (Op × ServiceObj) :=
  match env.applyDeploymentResult with
  | some e => (.error ("deployment apply: " ++ e), none)
  | none =>
    match env.watchOpenResult with
    | some e => (.error ("watch deploy: " ++ e), none)
    | none =>
      match deployWatchLoop env.events with
      | .watchNextError m => (.error ("watch next: " ++ m), none)
      | .fault => (.error "nil pointer dereference", none)
      | .blocked => (.error "blocked", none)
      | .ready =>
        let opSvc : Op × ServiceObj :=
          match env.prevService with
          | none => (.create, Deployment.service cfgName stage nsName "" "")
          | some s =>
            (.update,
              Deployment.service cfgName stage nsName s.clusterIP s.resourceVersion)
        match env.applyServiceResult with
        | some e => (.error ("deployment apply: " ++ e), some opSvc)
        | none => (.ok (), some opSvc)

/-! ## Platform-level Deploy (src/unnamed/part_005, package kubernetes) -/

/-- The events `(*Platform).Deploy` can emit, with the fields the
source places in them. -/
inductive PlatformEvent
  | deployComplete (commit stage version : String) (duration : Nat)
  | deployURL (url : String)
deriving Repr, DecidableEq

/-- Embeds `(*Platform).Deploy` (part_005 lines 128-159):
`deployment.Deploy` failure returns at once with no events; on its
success a deferred emit of `platform.deploy.complete` (fields commit,
stage, version = build id, duration) is registered, so it fires on
every later return; the URL lookup failure then returns the wrapped
error (the deferred complete event still fires); on URL success
`platform.deploy.url` is emitted, then the deferred complete event.
The returned list is in emission order. -/
def Platform.Deploy (deployResult : Option String)
    (urlResult : Except String String)
    (commit stage buildID : String) (duration : Nat) :
    Except String Unit × List PlatformEvent :=
  match deployResult with
  | some e => (.error ("deployment deploy: " ++ e), [])
  | none =>
    match urlResult with
    | .error e =>
      (.error ("fetching url: " ++ e),
        [.deployComplete commit stage buildID duration])
    | .ok url =>
      (.ok (),
        [.deployURL url, .deployComplete commit stage buildID duration])

/-! ## Auxiliary definitions used by concrete instantiations -/

/-- An event whose pod carries a populated `Status.Phase`. -/
def BuildWatchEvent.populated : BuildWatchEvent → Bool
  | .pod none => false
  | _ => true

/-- An event whose deployment carries populated
`Status.AvailableReplicas` and `Status.Replicas`. -/
def DeployWatchEvent.populated : DeployWatchEvent → Bool
  | .dep none _ => false
  | .dep _ none => false
  | _ => true

/-- A `RunEnv` in which every stage before the watch loop succeeds. -/
def runEnvAllOk (es : List BuildWatchEvent) : RunEnv :=
  { tenv :=
    { w1 := .ok, w2 := .ok, targzResult := .ok ()
      copyResult := .ok, closeResult := .ok }
    uploadResult := .ok "b/up-hello-prod/build-1.tar.gz"
    podCreateResult := none
    watchOpenResult := none
    events := es }

/-- A working directory containing neither injected file. -/
def fsClean : WorkDir := { upProxy := false, dockerfileUp := false }

/-- A `RunEnv` in which writing `up-proxy` succeeds but writing
`Dockerfile.up` fails. -/
def runEnvInjectPartway : RunEnv :=
  { tenv :=
    { w1 := .ok, w2 := .err "no space left on device", targzResult := .ok ()
      copyResult := .ok, closeResult := .ok }
    uploadResult := .ok ""
    podCreateResult := none
    watchOpenResult := none
    events := [] }

/-- A `DeployEnv` whose pre-existing service has a cluster IP and
resource version, and whose readiness watch reaches replica equality. -/
def deployEnvPrev : DeployEnv :=
  { applyDeploymentResult := none
    watchOpenResult := none
    events := [DeployWatchEvent.dep (some 1) (some 1)]
    prevService := some { clusterIP := "10.3.0.7", resourceVersion := "42" }
    applyServiceResult := none }

/-! ## Theorems for the claims -/

/-- **C1.** The source's `Override` does not assign `k.Storage.Bucket`
to `c.Kubernetes.Storage.Bucket`: with an override record whose only
non-zero field is `Storage.Bucket = "bucket2"` (and `Secure = false`),
the target's bucket stays `"bucket1"` and the target's `Secure`,
previously `true`, is clobbered to `false` by the Bucket branch. -/
theorem override_bucket_branch_assigns_secure :
    (Kubernetes.Override overrideBucketOnly configSecureBucket1).Kubernetes.Storage.Bucket
      = "bucket1"
  ∧ (Kubernetes.Override overrideBucketOnly configSecureBucket1).Kubernetes.Storage.Secure
      = false := by
  exact ⟨rfl, rfl⟩

/-- **C2.** `Stack.Create` treats a 409 API error on namespace
creation as success, but a namespace-creation failure that is not a
`*k8s.APIError` (the type assertion fails) is silently ignored: the
call still returns success instead of aborting. -/
theorem stackCreate_swallows_non_api_error :
    (KubernetesStack.Create (some (K8sErr.api 409)) "hunter2" (.ok ())).1 = .ok ()
  ∧ (KubernetesStack.Create (some (K8sErr.other "dial tcp: i/o timeout")) "" (.ok ())).1
      = .ok ()
  ∧ (KubernetesStack.Create (some (K8sErr.api 500)) "" (.ok ())).1
      = .error "create namespace" := by
  exact ⟨rfl, rfl, rfl⟩

/-- **C8.** When the registry password is empty, `Stack.Create` never
attempts the docker-registry secret step, whatever the namespace
call's outcome; and with the namespace created it returns success. -/
theorem stackCreate_empty_password_skips_secret
    (nsResult : Option K8sErr) (secretResult : Except String Unit) :
    (KubernetesStack.Create nsResult "" secretResult).2 = false
  ∧ (KubernetesStack.Create none "" secretResult).1 = .ok () := by
  constructor
  · match nsResult with
    | none => rfl
    | some (.other m) => rfl
    | some (.api code) =>
      by_cases h : code = 409 <;> simp [KubernetesStack.Create, h]
  · rfl

/-- **C3.** In `Run`'s watch loop a `watcher.Next` error propagates
without deleting the pod; a `Succeeded` event deletes the pod and
returns success; a `Failed` event deletes the pod and returns the
build-failed error; and over every event stream the pod is deleted
exactly when the loop ends in a terminal phase.  The last three
conjuncts restate this through `Build.Run` itself with all earlier
stages succeeding. -/
theorem buildRun_deletes_pod_iff_terminal (es : List BuildWatchEvent)
    (m : String) (fs : WorkDir) :
    buildWatchLoop (.nextErr m :: es) = (.watchNextError m, false)
  ∧ buildWatchLoop (.pod (some "Succeeded") :: es) = (.ok, true)
  ∧ buildWatchLoop (.pod (some "Failed") :: es) = (.buildFailed, true)
  ∧ ((buildWatchLoop es).2 = true ↔
      (buildWatchLoop es).1 = .ok ∨ (buildWatchLoop es).1 = .buildFailed)
  ∧ Build.Run (runEnvAllOk (.pod (some "Succeeded") :: es)) fs
      = (.ok, true, { upProxy := false, dockerfileUp := false })
  ∧ Build.Run (runEnvAllOk (.pod (some "Failed") :: es)) fs
      = (.buildFailed, true, { upProxy := false, dockerfileUp := false })
  ∧ Build.Run (runEnvAllOk (.nextErr m :: es)) fs
      = (.watchNextError m, false, { upProxy := false, dockerfileUp := false }) := by
  have hsucc : buildWatchLoop (.pod (some "Succeeded") :: es) = (.ok, true) := by
    simp [buildWatchLoop]
  have hfail : buildWatchLoop (.pod (some "Failed") :: es) = (.buildFailed, true) := by
    simp [buildWatchLoop]
  have herr : buildWatchLoop (.nextErr m :: es) = (.watchNextError m, false) := rfl
  refine ⟨herr, hsucc, hfail, ?_, ?_, ?_, ?_⟩
  · induction es with
    | nil => simp [buildWatchLoop]
    | cons e rest ih =>
      cases e with
      | nextErr m2 => simp [buildWatchLoop]
      | pod p =>
        cases p with
        | none => simp [buildWatchLoop]
        | some s =>
          by_cases hf : s = "Failed"
          · simp [buildWatchLoop, hf]
          · by_cases hs : s = "Succeeded" <;>
              simp [buildWatchLoop, hf, hs, ih]
  · simp [Build.Run, Build.tarball, Build.injectProxy, Build.removeProxy,
      runEnvAllOk, hsucc]
  · simp [Build.Run, Build.tarball, Build.injectProxy, Build.removeProxy,
      runEnvAllOk, hfail]
  · simp [Build.Run, Build.tarball, Build.injectProxy, Build.removeProxy,
      runEnvAllOk, herr]

/-- **C4, counterexample.** On the exit path where `injectProxy`
fails after writing `up-proxy` but before writing `Dockerfile.up`,
`Run` returns with `up-proxy` still present in the working directory:
the `defer b.removeProxy()` is registered only after `injectProxy`
returns successfully. -/
theorem run_partway_injection_leaves_up_proxy :
    (Build.Run runEnvInjectPartway fsClean).2.2.upProxy = true
  ∧ (Build.Run runEnvInjectPartway fsClean).1
      = .tarballError "build tarball: injecting proxy: writing up-proxy: no space left on device" := by
  exact ⟨rfl, rfl⟩

/-- **C4, amended.** Starting from a working directory containing
neither file, on every exit path of `Run` — success, packaging error,
upload error, pod-create error, or watch error — except the one where
injection fails between the two writes, the working directory ends
with neither `up-proxy` nor `Dockerfile.up`. -/
theorem run_cleans_workdir (env : RunEnv) (fs : WorkDir)
    (h1 : fs.upProxy = false) (h2 : fs.dockerfileUp = false)
    (h3 : env.tenv.w1 = .ok → env.tenv.w2 = .ok) :
    (Build.Run env fs).2.2.upProxy = false
  ∧ (Build.Run env fs).2.2.dockerfileUp = false := by
  obtain ⟨⟨w1, w2, tg, cp, cl⟩, u, pc, wo, ev⟩ := env
  cases w1 with
  | err m =>
    simp_all [Build.Run, Build.tarball, Build.injectProxy]
  | ok =>
    have hw2 : w2 = .ok := h3 rfl
    subst hw2
    rcases hl : buildWatchLoop ev with ⟨r, d⟩
    cases tg <;> cases cp <;> cases cl <;> cases u <;> cases pc <;> cases wo <;>
      cases r <;>
      simp_all [Build.Run, Build.tarball, Build.injectProxy, Build.removeProxy]

/-- **C4, witness for the amended theorem.** -/
theorem run_cleans_workdir_witness :
    (Build.Run (runEnvAllOk []) fsClean).2.2.upProxy = false
  ∧ (Build.Run (runEnvAllOk []) fsClean).2.2.dockerfileUp = false :=
  run_cleans_workdir (runEnvAllOk []) fsClean rfl rfl (fun _ => rfl)

/-- **C5.** When the deployment pipeline reaches the service step and
the `Get` found an existing service, the applied object is an `Update`
carrying the existing service's cluster IP and resource version; when
the `Get` failed (no service), the applied object is a `Create` whose
cluster IP is the empty string.  The service object is named after the
project. -/
theorem deploy_preserves_cluster_ip (cfgName stage nsName ip rv : String)
    (env : DeployEnv)
    (h1 : env.applyDeploymentResult = none)
    (h2 : env.watchOpenResult = none)
    (h3 : deployWatchLoop env.events = .ready) :
    (env.prevService = some { clusterIP := ip, resourceVersion := rv } →
      (Deployment.Deploy cfgName stage nsName env).2
        = some (.update, Deployment.service cfgName stage nsName ip rv))
  ∧ (env.prevService = none →
      (Deployment.Deploy cfgName stage nsName env).2
        = some (.create, Deployment.service cfgName stage nsName "" ""))
  ∧ (Deployment.service cfgName stage nsName ip rv).clusterIP = ip
  ∧ (Deployment.service cfgName stage nsName ip rv).resourceVersion = rv
  ∧ (Deployment.service cfgName stage nsName ip rv).name = cfgName
  ∧ (Deployment.service cfgName stage nsName "" "").clusterIP = "" := by
  refine ⟨?_, ?_, rfl, rfl, rfl, rfl⟩ <;> intro hp <;>
    cases hsvc : env.applyServiceResult <;>
      simp [Deployment.Deploy, h1, h2, h3, hp, hsvc]

/-- **C5, witness.** -/
theorem deploy_preserves_cluster_ip_witness :
    (Deployment.Deploy "hello" "prod" "up-hello-prod" deployEnvPrev).2
      = some (Op.update, Deployment.service "hello" "prod" "up-hello-prod" "10.3.0.7" "42") :=
  (deploy_preserves_cluster_ip "hello" "prod" "up-hello-prod" "10.3.0.7" "42"
    deployEnvPrev rfl rfl (by decide)).1 rfl

/-- `fmt.Sprintf` on the format `%s/%s:%s` concatenates its three
arguments around the separators. -/
theorem sprintf_three (a b c : String) :
    sprintf "%s/%s:%s" [a, b, c] = a ++ "/" ++ b ++ ":" ++ c := by
  obtain ⟨la⟩ := a; obtain ⟨lb⟩ := b; obtain ⟨lc⟩ := c
  show String.mk (sprintfChars ('%' :: 's' :: '/' :: '%' :: 's' :: ':' :: '%' :: 's' :: [])
      [⟨la⟩, ⟨lb⟩, ⟨lc⟩])
    = String.mk ((((la ++ ['/']) ++ lb) ++ [':']) ++ lc)
  have h : sprintfChars ('%' :: 's' :: '/' :: '%' :: 's' :: ':' :: '%' :: 's' :: [])
      [⟨la⟩, ⟨lb⟩, ⟨lc⟩] = la ++ '/' :: (lb ++ ':' :: lc) := by
    simp [sprintfChars]
  rw [h]
  simp

/-- `fmt.Sprintf` on the format `--destination=%s` prefixes its
argument. -/
theorem sprintf_destination (x : String) :
    sprintf "--destination=%s" [x] = "--destination=" ++ x := by
  obtain ⟨l⟩ := x
  show String.mk (sprintfChars ("--destination=%s".toList) [⟨l⟩])
    = String.mk ("--destination=".data ++ l)
  simp [sprintfChars]

/-- **C6.** For every build id, registry URL and registry image, the
image reference computed by `Build.Image` (via `kanikoDestination`)
is the registry URL, then "/", then the image, then ":", then the
build id; and the kaniko container receives exactly that reference in
its `--destination` argument. -/
theorem build_image_reference (id registry image : String) :
    Build.Image id registry image = registry ++ "/" ++ image ++ ":" ++ id
  ∧ Build.kanikoDestination id registry image
      = registry ++ "/" ++ image ++ ":" ++ id
  ∧ Build.kanikoArgs id registry image
      = [ "--cache=true"
        , "--dockerfile=Dockerfile.up"
        , "--context=dir:///build/context"
        , "--destination=" ++ (registry ++ "/" ++ image ++ ":" ++ id) ] := by
  have hdest : Build.kanikoDestination id registry image
      = registry ++ "/" ++ image ++ ":" ++ id := sprintf_three registry image id
  refine ⟨hdest, hdest, ?_⟩
  show [ "--cache=true", sprintf "--dockerfile=%s" ["Dockerfile.up"]
       , "--context=dir:///build/context"
       , sprintf "--destination=%s" [Build.kanikoDestination id registry image] ] = _
  rw [sprintf_destination, hdest]
  refine congrArg (fun s => [ "--cache=true", s, "--context=dir:///build/context"
    , "--destination=" ++ (registry ++ "/" ++ image ++ ":" ++ id)]) ?_
  decide

/-- Replacing every backslash by a forward slash leaves no backslash
in the result. -/
theorem goReplaceChar_no_backslash (l : List Char) :
    Char.ofNat 92 ∉ goReplaceChar (Char.ofNat 92) '/' l := by
  induction l with
  | nil => simp [goReplaceChar]
  | cons c rest ih =>
    by_cases h : c = Char.ofNat 92
    · simp [goReplaceChar, h, ih]
    · simp [goReplaceChar, h, ih]
      exact fun hc => h hc.symm

/-- **C7.** The packager transform rewrites each entry's name by
replacing every backslash with a forward slash — so no entry name
contains a backslash — forces the `0555` bits onto the mode, and
preserves size and modification time. -/
theorem targzTransform_normalizes (i : FileInfo) :
    (targzTransform i).name = goReplaceChar (Char.ofNat 92) '/' i.name
  ∧ Char.ofNat 92 ∉ (targzTransform i).name
  ∧ (targzTransform i).mode = i.mode ||| 0o555
  ∧ (targzTransform i).size = i.size
  ∧ (targzTransform i).modTime = i.modTime := by
  exact ⟨rfl, goReplaceChar_no_backslash i.name, rfl, rfl, rfl⟩

/-- **C9.** `Platform.Deploy` emits no event when the underlying
deployment fails; when the deployment succeeds it always emits
`platform.deploy.complete` with commit, stage, version = build id and
duration — also on the path where the URL lookup fails and the call
returns an error — while `platform.deploy.url` is emitted exactly
when the deployment succeeded and the URL lookup succeeded with that
URL. -/
theorem platformDeploy_events (e u url commit stage id : String) (dur : Nat) :
    Platform.Deploy (some e) (.ok url) commit stage id dur
      = (.error ("deployment deploy: " ++ e), [])
  ∧ Platform.Deploy none (.error u) commit stage id dur
      = (.error ("fetching url: " ++ u), [.deployComplete commit stage id dur])
  ∧ Platform.Deploy none (.ok url) commit stage id dur
      = (.ok (), [.deployURL url, .deployComplete commit stage id dur])
  ∧ (∀ (dr : Option String) (ur : Except String String),
      (PlatformEvent.deployComplete commit stage id dur
          ∈ (Platform.Deploy dr ur commit stage id dur).2
        ↔ dr = none))
  ∧ (∀ (dr : Option String) (ur : Except String String),
      (PlatformEvent.deployURL url ∈ (Platform.Deploy dr ur commit stage id dur).2
        ↔ dr = none ∧ ur = .ok url)) := by
  refine ⟨rfl, rfl, rfl, ?_, ?_⟩
  · intro dr ur
    cases dr <;> cases ur <;> simp [Platform.Deploy, eq_comm]
  · intro dr ur
    cases dr <;> cases ur <;> simp [Platform.Deploy, eq_comm]

/-- **C10.** Both watch loops dereference the status fields of every
event they receive: when every event of the stream carries populated
fields neither loop can fault — the build loop ends only in a
terminal phase, a watch error, or still waiting, and the readiness
loop only in replica equality, a watch error, or still waiting — and
an event with a missing field is not skipped: it makes the loop fault
at once (and the build loop does not delete the pod there). -/
theorem watch_loops_unconditional_deref (es : List BuildWatchEvent)
    (ds : List DeployWatchEvent) (rest : List BuildWatchEvent)
    (drest : List DeployWatchEvent) (a : Option Int) (r : Int)
    (hb : ∀ e ∈ es, e.populated = true)
    (hd : ∀ e ∈ ds, e.populated = true) :
    (buildWatchLoop es).1 ≠ .fault
  ∧ deployWatchLoop ds ≠ .fault
  ∧ buildWatchLoop (.pod none :: rest) = (.fault, false)
  ∧ deployWatchLoop (.dep none a :: drest) = .fault
  ∧ deployWatchLoop (.dep (some r) none :: drest) = .fault := by
  refine ⟨?_, ?_, rfl, by cases a <;> rfl, rfl⟩
  · induction es with
    | nil => simp [buildWatchLoop]
    | cons e tail ih =>
      have he : e.populated = true := hb e (List.mem_cons_self e tail)
      have htail : ∀ x ∈ tail, x.populated = true :=
        fun x hx => hb x (List.mem_cons_of_mem e hx)
      cases e with
      | nextErr m => simp [buildWatchLoop]
      | pod p =>
        cases p with
        | none => simp [BuildWatchEvent.populated] at he
        | some s =>
          by_cases hf : s = "Failed"
          · simp [buildWatchLoop, hf]
          · by_cases hs : s = "Succeeded" <;>
              simp [buildWatchLoop, hf, hs, ih htail]
  · induction ds with
    | nil => simp [deployWatchLoop]
    | cons e tail ih =>
      have he : e.populated = true := hd e (List.mem_cons_self e tail)
      have htail : ∀ x ∈ tail, x.populated = true :=
        fun x hx => hd x (List.mem_cons_of_mem e hx)
      cases e with
      | nextErr m => simp [deployWatchLoop]
      | dep av rep =>
        cases av with
        | none => simp [DeployWatchEvent.populated] at he
        | some av' =>
          cases rep with
          | none => simp [DeployWatchEvent.populated] at he
          | some rep' =>
            by_cases hr : av' = rep' <;>
              simp [deployWatchLoop, hr, ih htail]

/-- **C10, witness.** -/
theorem watch_loops_unconditional_deref_witness :
    (buildWatchLoop [.pod (some "Running"), .pod (some "Succeeded")]).1
        ≠ BuildLoopResult.fault
  ∧ deployWatchLoop [.dep (some 0) (some 1), .dep (some 1) (some 1)]
        ≠ DeployLoopResult.fault
  ∧ buildWatchLoop [.pod none] = (.fault, false)
  ∧ deployWatchLoop [.dep none (some 3)] = .fault
  ∧ deployWatchLoop [.dep (some 3) none] = .fault :=
  watch_loops_unconditional_deref
    [.pod (some "Running"), .pod (some "Succeeded")]
    [.dep (some 0) (some 1), .dep (some 1) (some 1)]
    [] [] (some 3) 3 (by decide) (by decide)

end Up
